import Mathlib

/-!
Verification of the corporate-network-simulator topology / connectivity engine.

This file gives a shallow embedding, in Lean 4, of the engine defined in
`src/unnamed/part_001` (NetworkUtils, Interface, Device) and
`src/js/Simulator.js` (NetworkSimulator: addDevice, connectInterfaces,
disconnectLink, removeDevice, testConnectivity, checkRoutingPath,
findPathBFS, checkPhysicalPath, getRoute; plus the UI-layer helpers
saveConfig and getPhysicalPath that the claims reference), and proves or
refutes the frozen claims about it.

Modelling conventions:
  * JavaScript numbers that occur in the address math are integers or NaN
    (they come from parseInt and 32-bit operators); they are modelled by
    Option Int, with none standing for NaN.  parseInt is modelled exactly
    on integers (the double rounding of 17-plus-digit literals is not
    modelled; no claim depends on such inputs).
  * The 32-bit operators <<, & and >>> 0 are modelled by explicit
    wrapping into signed (int32ofBits) or unsigned (% 2^32) range.
  * Mutation of the device array is modelled by state passing; JS object
    identity is modelled by device id / interface name lookup, which
    coincides with it on every state reachable through the public API
    (ids are unique, interface names are unique per device).
  * The two BFS loops terminate in JS because the visited set grows; they
    are modelled with an explicit fuel that is at least the number of
    possible enqueues, so the fuel never runs out on the modelled states.
  * setTimeout callbacks registered by connectInterfaces are modelled as
    an explicit pending-event list in the simulator state; firing an event
    applies the callback body.  disconnectLink does not touch the list,
    mirroring the absence of clearTimeout in the source.
-/

set_option maxRecDepth 10000

/-! ## AddressMath: NetworkUtils from src/unnamed/part_001 -/

/-- Digit-list accumulator used by the parseInt model: value of a decimal
digit string. -/
def digitsToNat (cs : List Char) : Nat :=
  cs.foldl (fun acc c => acc * 10 + (c.toNat - 48)) 0

/-- Leading-digits part of JS parseInt: value of the longest digit prefix,
none when there is no leading digit (parseInt returns NaN then). -/
def parseLeadingDigits (cs : List Char) : Option Nat :=
  let ds := cs.takeWhile Char.isDigit
  if ds.isEmpty then none else some (digitsToNat ds)

/-- Model of JavaScript parseInt(s, 10): skip leading whitespace, optional
sign, then the longest decimal-digit run; NaN (none) when no digit follows. -/
def jsParseInt (s : String) : Option Int :=
  match s.data.dropWhile Char.isWhitespace with
  | '-' :: rest => (parseLeadingDigits rest).map (fun n => -(n : Int))
  | '+' :: rest => (parseLeadingDigits rest).map (fun n => (n : Int))
  | cs => (parseLeadingDigits cs).map (fun n => (n : Int))

/-- Model of JavaScript String.prototype.split with separator '.':
splits at every dot; the empty string yields one empty field. -/
def splitDot : List Char → List (List Char)
  | [] => [[]]
  | c :: rest =>
    let ps := splitDot rest
    if c = '.' then [] :: ps
    else
      match ps with
      | [] => [[c]]
      | p :: ps' => (c :: p) :: ps'

/-- Reinterpret a 32-bit unsigned pattern as the signed int32 value that
JavaScript bitwise operators produce. -/
def int32ofBits (u : Nat) : Int :=
  if u < 2 ^ 31 then (u : Int) else (u : Int) - 2 ^ 32

/-- JS ToUint32 of an integer-or-NaN number (the >>> 0 coercion):
NaN becomes 0, integers wrap modulo 2^32. -/
def toU32 : Option Int → Nat
  | none => 0
  | some k => (k.emod (2 ^ 32)).toNat

/-- JS a << 8 on an integer-or-NaN number: ToInt32, shift the 32-bit
pattern left by 8, result reinterpreted signed. -/
def jsShl8 (a : Option Int) : Option Int :=
  some (int32ofBits ((toU32 a * 256) % 2 ^ 32))

/-- JS + on two integer-or-NaN numbers (NaN propagates). -/
def jsAddNum : Option Int → Option Int → Option Int
  | some a, some b => some (a + b)
  | _, _ => none

/-- NetworkUtils.ipToLong from src/unnamed/part_001:
ip.split('.').reduce((acc, octet) => (acc << 8) + parseInt(octet, 10), 0) >>> 0 -/
def ipToLong (s : String) : Nat :=
  toU32 ((splitDot s.data).foldl
    (fun acc p => jsAddNum (jsShl8 acc) (jsParseInt ⟨p⟩)) (some 0))

/-- JS a & b on two uint32 values (as delivered by ipToLong): ToInt32 both
sides, bitwise and of the 32-bit patterns, result reinterpreted signed. -/
def jsAnd (a b : Nat) : Int :=
  int32ofBits ((a % 2 ^ 32) &&& (b % 2 ^ 32))

/-- NetworkUtils.isSameSubnet from src/unnamed/part_001:
(ipToLong ip1 & ipToLong mask) === (ipToLong ip2 & ipToLong mask). -/
def isSameSubnet (ip1 ip2 mask : String) : Bool :=
  let longIp1 := ipToLong ip1
  let longIp2 := ipToLong ip2
  let longMask := ipToLong mask
  decide (jsAnd longIp1 longMask = jsAnd longIp2 longMask)

/-! ### Spec-side view of a well-formed dotted-decimal address -/

/-- A field of a well-formed dotted-decimal address: a nonempty decimal
digit string whose value is at most 255. -/
def isOctetStr (p : List Char) : Bool :=
  !p.isEmpty && p.all Char.isDigit && digitsToNat p ≤ 255

/-- Octets of a string that is exactly four dot-separated integers in
[0,255]; none for every other string. -/
def ipOctets (s : String) : Option (Nat × Nat × Nat × Nat) :=
  match splitDot s.data with
  | [p1, p2, p3, p4] =>
    if isOctetStr p1 && isOctetStr p2 && isOctetStr p3 && isOctetStr p4 then
      some (digitsToNat p1, digitsToNat p2, digitsToNat p3, digitsToNat p4)
    else none
  | _ => none

/-- Big-endian packing of four octets into an unsigned 32-bit value (the
spec reading of toInteger). -/
def pack4 (a b c d : Nat) : Nat :=
  ((a * 256 + b) * 256 + c) * 256 + d

/-! ## Data model: Interface and Device from src/unnamed/part_001

The display-only fields x, y and metadata are omitted; every other field is
kept.  A JS field that is null until assigned is modelled by Option. -/

structure Interface where
  name : String
  type : String
  ip : String
  mask : String
  connectedDeviceId : Option Nat
  connectedInterfaceName : Option String
  status : Option String
deriving DecidableEq, Repr

/-- Interface constructor: new Interface(name, type) — ip and mask default
to the empty string, the link fields to null, status is not set. -/
def Interface.mk0 (name type : String) : Interface :=
  ⟨name, type, "", "", none, none, none⟩

structure Device where
  id : Nat
  type : String
  name : String
  ip : String
  mask : String
  gateway : String
  interfaces : List Interface
  connections : List Nat
deriving DecidableEq, Repr

/-- Device.getInterface: this.interfaces.find(i => i.name === name). -/
def Device.getInterface (d : Device) (name : String) : Option Interface :=
  d.interfaces.find? (fun i => i.name = name)

/-- Device.connect: push the id unless already present. -/
def Device.connect (d : Device) (deviceId : Nat) : Device :=
  if d.connections.contains deviceId then d
  else { d with connections := d.connections ++ [deviceId] }

/-- Device.disconnect: drop the id from connections and null the
connectedDeviceId (not the name) of every interface pointing at it. -/
def Device.disconnect (d : Device) (deviceId : Nat) : Device :=
  { d with
    connections := d.connections.filter (fun id => id ≠ deviceId)
    interfaces := d.interfaces.map (fun iface =>
      if iface.connectedDeviceId = some deviceId then
        { iface with connectedDeviceId := none }
      else iface) }

/-- Mutation of the first interface with a given name (JS getInterface
returns the object, which is then mutated in place). -/
def Device.updateInterface (d : Device) (name : String) (f : Interface → Interface) :
    Device :=
  { d with interfaces := go d.interfaces }
where
  go : List Interface → List Interface
    | [] => []
    | i :: is => if i.name = name then f i :: is else i :: go is

/-! ## NetworkSimulator from src/js/Simulator.js -/

/-- A setTimeout callback registered by connectInterfaces: after the settle
delay it sets the status of both captured interfaces to up. -/
structure LinkUpEvent where
  d1 : Nat
  if1 : String
  d2 : Nat
  if2 : String
deriving DecidableEq, Repr

/-- Simulator state: the device array, the id counter, and the queue of
pending link-up timers (the JS runtime timer queue).  Text labels and logs
carry no connectivity content and are omitted. -/
structure NetworkSimulator where
  devices : List Device
  nextId : Nat
  pending : List LinkUpEvent
deriving DecidableEq, Repr

def NetworkSimulator.init : NetworkSimulator := ⟨[], 1, []⟩

/-- getDevice: this.devices.find(d => d.id === id). -/
def getDevice (st : NetworkSimulator) (id : Nat) : Option Device :=
  st.devices.find? (fun d => d.id = id)

/-- Mutation of the first device with a given id (JS getDevice returns the
object, which is then mutated in place). -/
def updateFirstDevice (st : NetworkSimulator) (id : Nat) (f : Device → Device) :
    NetworkSimulator :=
  { st with devices := go st.devices }
where
  go : List Device → List Device
    | [] => []
    | d :: ds => if d.id = id then f d :: ds else d :: go ds

/-- The id-dependent display name built in addDevice (padStart(2, zero)). -/
def pad2 (id : Nat) : String :=
  let s := toString id
  if s.length < 2 then "0" ++ s else s

/-- Kind-specific interface provisioning performed by addDevice. -/
def defaultInterfaces (type : String) : List Interface :=
  if type = "Router" then
    [Interface.mk0 "FastEthernet0/0" "ethernet", Interface.mk0 "FastEthernet0/1" "ethernet",
     Interface.mk0 "Serial0/0/0" "serial", Interface.mk0 "Serial0/0/1" "serial"]
  else if type = "Switch" then
    (List.range 24).map (fun i => Interface.mk0 ("FastEthernet0/" ++ toString (i + 1)) "ethernet")
  else
    [Interface.mk0 "FastEthernet0" "ethernet"]

/-- NetworkSimulator.addDevice (position arguments omitted): fresh id, kind
name, empty addressing, kind-specific interfaces; returns the device. -/
def NetworkSimulator.addDevice (st : NetworkSimulator) (type : String) :
    Device × NetworkSimulator :=
  let id := st.nextId
  let name := type ++ "-" ++ pad2 id
  let device : Device := ⟨id, type, name, "", "", "", defaultInterfaces type, []⟩
  (device, { st with devices := st.devices ++ [device], nextId := st.nextId + 1 })

/-- NetworkSimulator.connectInterfaces: fails (returns false, no mutation)
when a device or interface is missing or either interface is already
connected; otherwise links both ends, sets both statuses to down, records
the physical adjacency, and registers the 2-second link-up timer. -/
def connectInterfaces (st : NetworkSimulator) (id1 : Nat) (ifName1 : String)
    (id2 : Nat) (ifName2 : String) : Bool × NetworkSimulator :=
  match getDevice st id1, getDevice st id2 with
  | some d1, some d2 =>
    match d1.getInterface ifName1, d2.getInterface ifName2 with
    | some i1, some i2 =>
      if i1.connectedDeviceId.isSome || i2.connectedDeviceId.isSome then (false, st)
      else
        let st1 := updateFirstDevice st id1 (fun d => d.updateInterface ifName1
          (fun i => { i with connectedDeviceId := some id2,
                             connectedInterfaceName := some ifName2,
                             status := some "down" }))
        let st2 := updateFirstDevice st1 id2 (fun d => d.updateInterface ifName2
          (fun i => { i with connectedDeviceId := some id1,
                             connectedInterfaceName := some ifName1,
                             status := some "down" }))
        let st3 := updateFirstDevice st2 id1 (fun d => d.connect id2)
        let st4 := updateFirstDevice st3 id2 (fun d => d.connect id1)
        (true, { st4 with pending := st4.pending ++ [⟨id1, ifName1, id2, ifName2⟩] })
    | _, _ => (false, st)
  | _, _ => (false, st)

/-- The body of the setTimeout callback registered by connectInterfaces:
set both captured interfaces to up.  The closure holds object references;
looking the interfaces up by device id and name is equivalent whenever the
devices are still present (interfaces are never removed), and a removed
device is simply unaffected, as in JS. -/
def fireLinkUp (st : NetworkSimulator) (e : LinkUpEvent) : NetworkSimulator :=
  let st1 := updateFirstDevice st e.d1 (fun d => d.updateInterface e.if1
    (fun i => { i with status := some "up" }))
  updateFirstDevice st1 e.d2 (fun d => d.updateInterface e.if2
    (fun i => { i with status := some "up" }))

/-- NetworkSimulator.disconnectLink.  Note that no pending timer is
cancelled: the source has no clearTimeout. -/
def disconnectLink (st : NetworkSimulator) (id1 : Nat) (iface1Name : String)
    (id2 : Nat) (iface2Name : String) : NetworkSimulator :=
  let st1 :=
    match getDevice st id1 with
    | none => st
    | some _ =>
      let sta := updateFirstDevice st id1 (fun d => d.updateInterface iface1Name
        (fun i => { i with connectedDeviceId := none, connectedInterfaceName := none }))
      updateFirstDevice sta id1 (fun d => d.disconnect id2)
  match getDevice st1 id2 with
  | none => st1
  | some _ =>
    let stb := updateFirstDevice st1 id2 (fun d => d.updateInterface iface2Name
      (fun i => { i with connectedDeviceId := none, connectedInterfaceName := none }))
    updateFirstDevice stb id2 (fun d => d.disconnect id1)

/-- NetworkSimulator.removeDevice: disconnect every connected interface
(reading the current field values at each step, as the JS forEach does over
the mutating objects), then drop the device.  A null
connectedInterfaceName is passed through as a name that matches nothing
(interface names are nonempty). -/
def removeDevice (st : NetworkSimulator) (id : Nat) : NetworkSimulator :=
  let st' : NetworkSimulator :=
    match getDevice st id with
    | none => st
    | some d =>
      (d.interfaces.map (fun i => i.name)).foldl (fun (acc : NetworkSimulator) nm =>
        match (getDevice acc id).bind (fun dd => dd.getInterface nm) with
        | some i =>
          match i.connectedDeviceId with
          | some cid => disconnectLink acc id nm cid (i.connectedInterfaceName.getD "")
          | none => acc
        | none => acc) st
  { st' with devices := st'.devices.filter (fun d => d.id ≠ id) }

/-- Interface ip/mask assignment loop of UI.saveConfig: the idx-th
interface takes the idx-th configured pair. -/
def assignCfgs : List Interface → List (String × String) → List Interface
  | ifaces, [] => ifaces
  | [], _ => []
  | i :: is, (ip, mask) :: cs => { i with ip := ip, mask := mask } :: assignCfgs is cs

/-- UI.saveConfig, engine part (name editing omitted; callers pass trimmed
values): abort without mutation when a nonempty new ip is already assigned
to another device or one of its interfaces; otherwise assign each
interface its (ip, mask) pair, assign the gateway for non-Router,
non-Switch devices (only those have a gateway field in the form), and sync
the legacy device ip/mask to the first interface. -/
def saveDeviceConfig (st : NetworkSimulator) (id : Nat)
    (cfgs : List (String × String)) (gw : String) : NetworkSimulator :=
  match getDevice st id with
  | none => st
  | some d =>
    let newIPs := ((cfgs.take d.interfaces.length).map (fun c => c.1)).filter (fun ip => ip ≠ "")
    let dup := newIPs.any (fun ip => st.devices.any (fun dev =>
      dev.id ≠ d.id && (dev.ip = ip || dev.interfaces.any (fun i => i.ip = ip))))
    if dup then st
    else
      updateFirstDevice st id (fun dd =>
        let dd := { dd with interfaces := assignCfgs dd.interfaces cfgs }
        let dd := if dd.type ≠ "Router" && dd.type ≠ "Switch" then
            { dd with gateway := gw } else dd
        match dd.interfaces with
        | first :: _ => { dd with ip := first.ip, mask := first.mask }
        | [] => dd)

/-! ## PhysicalReachability: checkPhysicalPath and UI.getPhysicalPath -/

/-- Fuel bound for the physical BFS: one dequeue per possible enqueue
(the start node plus at most one per connection entry). -/
def physFuel (st : NetworkSimulator) : Nat :=
  1 + (st.devices.map (fun d => d.connections.length)).sum

/-- Loop of NetworkSimulator.checkPhysicalPath: BFS over the connections
lists with a visited set. -/
def physBFSAux (st : NetworkSimulator) (endId : Nat) :
    Nat → List Nat → List Nat → Bool
  | _, [], _ => false
  | 0, _ :: _, _ => false
  | fuel + 1, curr :: queue, visited =>
    if curr = endId then true
    else
      let qv :=
        match getDevice st curr with
        | none => (queue, visited)
        | some device => device.connections.foldl (fun qv nb =>
            if qv.2.contains nb then qv else (qv.1 ++ [nb], qv.2 ++ [nb]))
            (queue, visited)
      physBFSAux st endId fuel qv.1 qv.2

/-- NetworkSimulator.checkPhysicalPath. -/
def checkPhysicalPath (st : NetworkSimulator) (startId endId : Nat) : Bool :=
  physBFSAux st endId (physFuel st) [startId] [startId]

/-- Loop of UI.getPhysicalPath: same BFS carrying whole paths. -/
def getPhysicalPathAux (st : NetworkSimulator) (endId : Nat) :
    Nat → List (List Nat) → List Nat → Option (List Nat)
  | _, [], _ => none
  | 0, _ :: _, _ => none
  | fuel + 1, path :: queue, visited =>
    let curr := path.getLastD 0
    if curr = endId then some path
    else
      let qv :=
        match getDevice st curr with
        | none => (queue, visited)
        | some device => device.connections.foldl (fun qv nb =>
            if qv.2.contains nb then qv else (qv.1 ++ [path ++ [nb]], qv.2 ++ [nb]))
            (queue, visited)
      getPhysicalPathAux st endId fuel qv.1 qv.2

/-- UI.getPhysicalPath: the physical trace used by the animation consumer. -/
def getPhysicalPath (st : NetworkSimulator) (startId endId : Nat) :
    Option (List Nat) :=
  getPhysicalPathAux st endId (physFuel st) [[startId]] [startId]

/-! ## RoutingEngine: checkRoutingPath, findPathBFS, getRoute -/

/-- The configured-address list of a device as computed at the top of
checkRoutingPath (routers contribute all configured interface addresses, a
host contributes its single address when set). -/
def routableIPs (d : Device) : List String :=
  if d.type = "Router" then (d.interfaces.map (fun i => i.ip)).filter (fun ip => ip ≠ "")
  else if d.ip ≠ "" then [d.ip] else []

/-- The target address list as computed inside the BFS loops of
findPathBFS and getRoute (for a non-router the single field value is used
unfiltered, guarded by a truthiness test at use sites). -/
def bfsTargetIPs (d : Device) : List String :=
  if d.type = "Router" then (d.interfaces.map (fun i => i.ip)).filter (fun ip => ip ≠ "")
  else [d.ip]

/-- Per-node direct-reach test shared verbatim by the loop bodies of
findPathBFS and getRoute: some configured interface of the current router
is in the same subnet as some target address. -/
def routerDirect (target current : Device) : Bool :=
  current.interfaces.any (fun iface =>
    iface.ip ≠ "" && iface.mask ≠ "" &&
      (bfsTargetIPs target).any (fun tip => tip ≠ "" && isSameSubnet iface.ip tip iface.mask))

/-- Neighbor expansion shared verbatim by findPathBFS and getRoute: a
neighbor is enqueued when it is a router, not yet visited, and the two
connecting interfaces are both addressed with the near side holding a mask
and the two addresses in the same subnet.  Returns the enqueued routers in
traversal order together with the grown visited set. -/
def expandStep (st : NetworkSimulator) (current : Device) (visited : List Nat) :
    List Device × List Nat :=
  current.interfaces.foldl (fun acc iface =>
    match iface.connectedDeviceId with
    | none => acc
    | some cid =>
      match getDevice st cid with
      | none => acc
      | some neighbor =>
        if neighbor.type = "Router" && !acc.2.contains neighbor.id then
          match (match iface.connectedInterfaceName with
                 | none => none
                 | some nm => neighbor.getInterface nm) with
          | none => acc
          | some neighborIface =>
            if neighborIface.ip ≠ "" && iface.ip ≠ "" && iface.mask ≠ "" &&
                isSameSubnet iface.ip neighborIface.ip iface.mask then
              (acc.1 ++ [neighbor], acc.2 ++ [neighbor.id])
            else acc
        else acc) ([], visited)

/-- Fuel bound for the router BFS: one dequeue per possible enqueue (every
enqueue marks a distinct device id visited). -/
def routingFuel (st : NetworkSimulator) : Nat :=
  st.devices.length + 1

/-- Loop of NetworkSimulator.findPathBFS. -/
def findPathBFSAux (st : NetworkSimulator) (target : Device) :
    Nat → List Device → List Nat → Bool
  | _, [], _ => false
  | 0, _ :: _, _ => false
  | fuel + 1, current :: queue, visited =>
    if routerDirect target current then true
    else
      let ex := expandStep st current visited
      findPathBFSAux st target fuel (queue ++ ex.1) ex.2

/-- NetworkSimulator.findPathBFS. -/
def findPathBFS (st : NetworkSimulator) (startRouter target : Device) : Bool :=
  if startRouter.id = target.id then true
  else findPathBFSAux st target (routingFuel st) [startRouter] [startRouter.id]

/-- The router lookup used for gateway resolution in checkRoutingPath and
getRoute: the first router owning an interface whose address equals the
gateway. -/
def gatewayRouter (st : NetworkSimulator) (gw : String) : Option Device :=
  st.devices.find? (fun d => d.type = "Router" && d.interfaces.any (fun i => i.ip = gw))

/-- Step 1 of checkRoutingPath: the direct same-subnet check over all
configured source/target address pairs, the mask taken from the first
source interface carrying the address (or the legacy device mask). -/
def directStep (source target : Device) : Bool :=
  (routableIPs source).any (fun sip =>
    let sMask := if source.type = "Router" then
        ((source.interfaces.find? (fun i => i.ip = sip)).map (fun i => i.mask)).getD ""
      else source.mask
    sMask ≠ "" && (routableIPs target).any (fun tip => isSameSubnet sip tip sMask))

/-- NetworkSimulator.checkRoutingPath: direct match, else gateway
resolution to a start router, else router BFS. -/
def checkRoutingPath (st : NetworkSimulator) (source target : Device) : Bool :=
  if directStep source target then true
  else
    match (if source.type = "Router" then some source
           else if source.gateway = "" then none
           else if !isSameSubnet source.ip source.gateway source.mask then none
           else gatewayRouter st source.gateway) with
    | none => false
    | some startRouter => findPathBFS st startRouter target

/-- Route assembly at a BFS hit in getRoute:
[...prefixPart, ...path, target], where prefixPart cuts the accumulated
lead-in just before the start router (indexOf on object identity, here by
id, which agrees on API-reachable states). -/
def routeOnHit (pre : List Device) (path : List Device) (target current : Device) :
    List Device :=
  let idx := pre.findIdx (fun d => d.id = (path.headD current).id)
  if target.id ≠ current.id then pre.take idx ++ path ++ [target]
  else pre.take idx ++ path

/-- Loop of NetworkSimulator.getRoute: the same BFS as findPathBFSAux but
carrying the path for reconstruction. -/
def getRouteAux (st : NetworkSimulator) (target : Device) (pre : List Device) :
    Nat → List (Device × List Device) → List Nat → Option (List Device)
  | _, [], _ => none
  | 0, _ :: _, _ => none
  | fuel + 1, (current, path) :: queue, visited =>
    if routerDirect target current then some (routeOnHit pre path target current)
    else
      let ex := expandStep st current visited
      getRouteAux st target pre fuel
        (queue ++ ex.1.map (fun n => (n, path ++ [n]))) ex.2

/-- NetworkSimulator.getRoute: direct hop for a non-router source in the
same subnet as the target (using the raw legacy fields), else gateway
resolution, else router BFS with path reconstruction. -/
def getRoute (st : NetworkSimulator) (sourceId targetId : Nat) :
    Option (List Device) :=
  match getDevice st sourceId, getDevice st targetId with
  | some source, some target =>
    if source.type = "Router" then
      getRouteAux st target [source] (routingFuel st) [(source, [source])] [source.id]
    else
      if isSameSubnet source.ip target.ip source.mask then some [source, target]
      else if source.gateway = "" then none
      else
        match gatewayRouter st source.gateway with
        | some startRouter =>
          getRouteAux st target [source, startRouter] (routingFuel st)
            [(startRouter, [startRouter])] [startRouter.id]
        | none => none
  | _, _ => none

/-! ## testConnectivity -/

structure PingResult where
  success : Bool
  msg : String
deriving DecidableEq, Repr

/-- The success message synthesized by testConnectivity, including the
appended packet statistics block. -/
def pingSuccessMsg (target : Device) : String :=
  let replyIP := if target.type = "Router" then
      ((target.interfaces.find? (fun i => i.ip ≠ "")).map (fun i => i.ip)).getD "Router"
    else target.ip
  let targetName := if target.type = "Router" then "Router" else target.ip
  "Respuesta desde " ++ replyIP ++ ": bytes=32 tiempo=5ms TTL=248" ++
    "\n\nEstadísticas de ping para " ++ targetName ++
    ":\n    Paquetes: Enviados = 4, Recibidos = 4, Perdidos = 0 (0% perdidos)"

/-- NetworkSimulator.testConnectivity (the parseInt on the incoming ids is
dropped: ids are numerals here). -/
def testConnectivity (st : NetworkSimulator) (sourceId targetId : Nat) :
    PingResult :=
  match getDevice st sourceId, getDevice st targetId with
  | some source, some target =>
    if source.id = target.id then
      ⟨false, "Error: No se puede hacer ping a sí mismo"⟩
    else if !checkPhysicalPath st source.id target.id then
      ⟨false, "Error: No existe conexión física (cable) entre los dispositivos"⟩
    else if source.ip = "" && source.type ≠ "Router" then
      ⟨false, "Error: Configuración IP faltante en Origen"⟩
    else if checkRoutingPath st source target then
      ⟨true, pingSuccessMsg target⟩
    else if source.gateway ≠ "" && !isSameSubnet source.ip source.gateway source.mask then
      ⟨false, "Error: Gateway inalcanzable (fuera de subred)"⟩
    else
      ⟨false, "Red de destino inalcanzable"⟩
  | _, _ => ⟨false, "Dispositivo no encontrado"⟩

/-- State-passing form of testConnectivity: the method contains no
assignment to the simulator, the devices or the interfaces, so the state
component is returned unchanged. -/
def testConnectivityRun (st : NetworkSimulator) (sourceId targetId : Nat) :
    PingResult × NetworkSimulator :=
  (testConnectivity st sourceId targetId, st)

/-- State-passing form of getRoute, likewise assignment-free. -/
def getRouteRun (st : NetworkSimulator) (sourceId targetId : Nat) :
    Option (List Device) × NetworkSimulator :=
  (getRoute st sourceId targetId, st)

/-! ## Concrete topologies built through the public mutation API -/

/-- Two freshly added PCs, nothing configured, nothing cabled. -/
def twoBlankPCs : NetworkSimulator :=
  (((NetworkSimulator.init).addDevice "PC").2.addDevice "PC").2

/-- Router (id 1, Fa0/0 = 192.168.1.1/24) cabled to PC (id 2,
192.168.1.10/24, gateway 192.168.1.1). -/
def routerPCState : NetworkSimulator :=
  let st := ((NetworkSimulator.init).addDevice "Router").2
  let st := (st.addDevice "PC").2
  let st := (connectInterfaces st 1 "FastEthernet0/0" 2 "FastEthernet0").2
  let st := saveDeviceConfig st 1
    [("192.168.1.1", "255.255.255.0"), ("", ""), ("", ""), ("", "")] ""
  saveDeviceConfig st 2 [("192.168.1.10", "255.255.255.0")] "192.168.1.1"

/-- PC (id 1, 10.0.0.1/24, no gateway) cabled to a PC (id 2) that has no
address configured. -/
def pcToBlankPC : NetworkSimulator :=
  let st := ((NetworkSimulator.init).addDevice "PC").2
  let st := (st.addDevice "PC").2
  let st := (connectInterfaces st 1 "FastEthernet0" 2 "FastEthernet0").2
  saveDeviceConfig st 1 [("10.0.0.1", "255.255.255.0")] ""

/-- PC (id 1, 10.0.0.1/24, gateway 10.0.0.254 in its own subnet but owned
by no router) cabled to PC (id 2, 192.168.1.2/24). -/
def pcGatewaylessPair : NetworkSimulator :=
  let st := ((NetworkSimulator.init).addDevice "PC").2
  let st := (st.addDevice "PC").2
  let st := (connectInterfaces st 1 "FastEthernet0" 2 "FastEthernet0").2
  let st := saveDeviceConfig st 1 [("10.0.0.1", "255.255.255.0")] "10.0.0.254"
  saveDeviceConfig st 2 [("192.168.1.2", "255.255.255.0")] ""

/-- PC (id 1, 10.0.0.1/24, no gateway) cabled to PC (id 2,
192.168.1.2/24): a cross-subnet pair with no gateway set. -/
def pcNoGatewayPair : NetworkSimulator :=
  let st := ((NetworkSimulator.init).addDevice "PC").2
  let st := (st.addDevice "PC").2
  let st := (connectInterfaces st 1 "FastEthernet0" 2 "FastEthernet0").2
  let st := saveDeviceConfig st 1 [("10.0.0.1", "255.255.255.0")] ""
  saveDeviceConfig st 2 [("192.168.1.2", "255.255.255.0")] ""

/-- Scenario D: PC1 (id 1, 10.0.0.10/24, gw 10.0.0.1) — Router1 (id 2,
Fa0/0 = 10.0.0.1/24) — serial link with both ends unaddressed — Router2
(id 3, Fa0/0 = 192.168.1.1/24) — PC2 (id 4, 192.168.1.10/24, gw
192.168.1.1). -/
def scenarioD : NetworkSimulator :=
  let st := ((NetworkSimulator.init).addDevice "PC").2
  let st := (st.addDevice "Router").2
  let st := (st.addDevice "Router").2
  let st := (st.addDevice "PC").2
  let st := (connectInterfaces st 1 "FastEthernet0" 2 "FastEthernet0/0").2
  let st := (connectInterfaces st 2 "Serial0/0/0" 3 "Serial0/0/0").2
  let st := (connectInterfaces st 3 "FastEthernet0/0" 4 "FastEthernet0").2
  let st := saveDeviceConfig st 1 [("10.0.0.10", "255.255.255.0")] "10.0.0.1"
  let st := saveDeviceConfig st 2
    [("10.0.0.1", "255.255.255.0"), ("", ""), ("", ""), ("", "")] ""
  let st := saveDeviceConfig st 3
    [("192.168.1.1", "255.255.255.0"), ("", ""), ("", ""), ("", "")] ""
  saveDeviceConfig st 4 [("192.168.1.10", "255.255.255.0")] "192.168.1.1"

/-- Two PCs just after connecting their interfaces (statuses down, one
pending link-up timer). -/
def linkedPair : NetworkSimulator :=
  (connectInterfaces twoBlankPCs 1 "FastEthernet0" 2 "FastEthernet0").2

/-- The same pair after disconnectLink: the interfaces are unlinked but
the pending timer is still registered. -/
def unlinkedPair : NetworkSimulator :=
  disconnectLink linkedPair 1 "FastEthernet0" 2 "FastEthernet0"

/-- The stale timer of the torn-down link. -/
def staleTimer : LinkUpEvent :=
  ⟨1, "FastEthernet0", 2, "FastEthernet0"⟩

/-- The disconnected pair after the stale timer fires. -/
def resurrectedPair : NetworkSimulator :=
  fireLinkUp unlinkedPair staleTimer

/-- PC (id 1, ip 10.0.0.1, empty mask, no gateway) and PC (id 2,
192.168.5.7/24) in clearly different networks, not cabled. -/
def emptyMaskPair : NetworkSimulator :=
  let st := ((NetworkSimulator.init).addDevice "PC").2
  let st := (st.addDevice "PC").2
  let st := saveDeviceConfig st 1 [("10.0.0.1", "")] ""
  saveDeviceConfig st 2 [("192.168.5.7", "255.255.255.0")] ""

/-- The Router device of routerPCState as reached through the API
(used to instantiate hypotheses at a concrete input). -/
def routerPCsrc : Device :=
  ⟨1, "Router", "Router-01", "192.168.1.1", "255.255.255.0", "",
   [⟨"FastEthernet0/0", "ethernet", "192.168.1.1", "255.255.255.0",
     some 2, some "FastEthernet0", some "down"⟩,
    Interface.mk0 "FastEthernet0/1" "ethernet",
    Interface.mk0 "Serial0/0/0" "serial",
    Interface.mk0 "Serial0/0/1" "serial"], [2]⟩

/-- The PC device of routerPCState. -/
def routerPCtgt : Device :=
  ⟨2, "PC", "PC-02", "192.168.1.10", "255.255.255.0", "192.168.1.1",
   [⟨"FastEthernet0", "ethernet", "192.168.1.10", "255.255.255.0",
     some 1, some "FastEthernet0/0", some "down"⟩], [1]⟩

/-- The configured PC of pcToBlankPC. -/
def blankTargetSrc : Device :=
  ⟨1, "PC", "PC-01", "10.0.0.1", "255.255.255.0", "",
   [⟨"FastEthernet0", "ethernet", "10.0.0.1", "255.255.255.0",
     some 2, some "FastEthernet0", some "down"⟩], [2]⟩

/-- The unconfigured PC of pcToBlankPC. -/
def blankTargetTgt : Device :=
  ⟨2, "PC", "PC-02", "", "", "",
   [⟨"FastEthernet0", "ethernet", "", "",
     some 1, some "FastEthernet0", some "down"⟩], [1]⟩

/-- The gateway-configured PC of pcGatewaylessPair. -/
def gwlessSrc : Device :=
  ⟨1, "PC", "PC-01", "10.0.0.1", "255.255.255.0", "10.0.0.254",
   [⟨"FastEthernet0", "ethernet", "10.0.0.1", "255.255.255.0",
     some 2, some "FastEthernet0", some "down"⟩], [2]⟩

/-- The other-subnet PC of pcGatewaylessPair. -/
def gwlessTgt : Device :=
  ⟨2, "PC", "PC-02", "192.168.1.2", "255.255.255.0", "",
   [⟨"FastEthernet0", "ethernet", "192.168.1.2", "255.255.255.0",
     some 1, some "FastEthernet0", some "down"⟩], [1]⟩

/-- The gatewayless PC of pcNoGatewayPair. -/
def noGwSrc : Device :=
  ⟨1, "PC", "PC-01", "10.0.0.1", "255.255.255.0", "",
   [⟨"FastEthernet0", "ethernet", "10.0.0.1", "255.255.255.0",
     some 2, some "FastEthernet0", some "down"⟩], [2]⟩

/-- The other-subnet PC of pcNoGatewayPair. -/
def noGwTgt : Device :=
  ⟨2, "PC", "PC-02", "192.168.1.2", "255.255.255.0", "",
   [⟨"FastEthernet0", "ethernet", "192.168.1.2", "255.255.255.0",
     some 1, some "FastEthernet0", some "down"⟩], [1]⟩

/-! ### AddressMath lemmas -/

theorem int32ofBits_inj {u v : Nat} (hu : u < 2 ^ 32) (hv : v < 2 ^ 32)
    (h : int32ofBits u = int32ofBits v) : u = v := by
  unfold int32ofBits at h
  split at h <;> split at h <;> omega

theorem jsAnd_eq_iff {a b m : Nat} (ha : a < 2 ^ 32) (hb : b < 2 ^ 32)
    (hm : m < 2 ^ 32) :
    (jsAnd a m = jsAnd b m) ↔ (a &&& m = b &&& m) := by
  unfold jsAnd
  rw [Nat.mod_eq_of_lt ha, Nat.mod_eq_of_lt hb, Nat.mod_eq_of_lt hm]
  constructor
  · intro h
    exact int32ofBits_inj (Nat.and_lt_two_pow a hm) (Nat.and_lt_two_pow b hm) h
  · intro h
    rw [h]

theorem ipToLong_lt (s : String) : ipToLong s < 2 ^ 32 := by
  unfold ipToLong
  generalize ((splitDot s.data).foldl
    (fun acc p => jsAddNum (jsShl8 acc) (jsParseInt ⟨p⟩)) (some 0)) = x
  match x with
  | none => decide
  | some k =>
    simp only [toU32]
    have h1 : (0 : Int) ≤ k.emod (2 ^ 32) := Int.emod_nonneg k (by norm_num)
    have h2 : k.emod (2 ^ 32) < 2 ^ 32 := Int.emod_lt_of_pos k (by norm_num)
    omega

theorem char_digit_not_ws {c : Char} (h : c.isDigit = true) :
    c.isWhitespace = false := by
  by_cases h1 : c = ' '
  · subst h1; exact absurd h (by decide)
  by_cases h2 : c = '\t'
  · subst h2; exact absurd h (by decide)
  by_cases h3 : c = '\r'
  · subst h3; exact absurd h (by decide)
  by_cases h4 : c = '\n'
  · subst h4; exact absurd h (by decide)
  simp [Char.isWhitespace, h1, h2, h3, h4]

theorem char_digit_ne_minus {c : Char} (h : c.isDigit = true) : c ≠ '-' := by
  intro h1; subst h1; exact absurd h (by decide)

theorem char_digit_ne_plus {c : Char} (h : c.isDigit = true) : c ≠ '+' := by
  intro h1; subst h1; exact absurd h (by decide)

theorem takeWhile_of_all {α : Type} {p : α → Bool} {l : List α}
    (h : l.all p = true) : l.takeWhile p = l := by
  induction l with
  | nil => rfl
  | cons a t ih =>
    simp only [List.all_cons, Bool.and_eq_true] at h
    simp [List.takeWhile_cons, h.1, ih h.2]

theorem jsParseInt_of_digits {p : List Char} (hne : p ≠ [])
    (hd : p.all Char.isDigit = true) :
    jsParseInt ⟨p⟩ = some ((digitsToNat p : Int)) := by
  match p, hne with
  | c :: rest, _ =>
    have hc : c.isDigit = true := by
      simp only [List.all_cons, Bool.and_eq_true] at hd; exact hd.1
    have hdata : (String.mk (c :: rest)).data = c :: rest := rfl
    unfold jsParseInt
    rw [hdata, List.dropWhile_cons, char_digit_not_ws hc]
    simp only [Bool.false_eq_true, if_false]
    have hmatch :
        (match c :: rest with
          | '-' :: rest => (parseLeadingDigits rest).map (fun n => -(n : Int))
          | '+' :: rest => (parseLeadingDigits rest).map (fun n => (n : Int))
          | cs => (parseLeadingDigits cs).map (fun n => (n : Int)))
        = (parseLeadingDigits (c :: rest)).map (fun n => (n : Int)) := by
      have hm := char_digit_ne_minus hc
      have hp := char_digit_ne_plus hc
      split
      · next heq => rw [List.cons.injEq] at heq; exact absurd heq.1 hm
      · next heq => rw [List.cons.injEq] at heq; exact absurd heq.1 hp
      · rfl
    rw [hmatch]
    unfold parseLeadingDigits
    rw [takeWhile_of_all hd]
    simp

theorem jsShl8_small {u : Nat} (hu : u < 2 ^ 23) :
    jsShl8 (some (u : Int)) = some ((u * 256 : Nat) : Int) := by
  simp only [jsShl8, toU32, int32ofBits]
  have h1 : (u : Int).emod (2 ^ 32) = u :=
    Int.emod_eq_of_lt (by positivity) (by exact_mod_cast (by omega : u < 2 ^ 32))
  rw [h1]
  have h2 : (u : Int).toNat = u := Int.toNat_natCast u
  rw [h2]
  rw [Nat.mod_eq_of_lt (by omega : u * 256 < 2 ^ 32)]
  rw [if_pos (by omega : u * 256 < 2 ^ 31)]

theorem fold_step_small {u v : Nat} (hu : u < 2 ^ 23) :
    jsAddNum (jsShl8 (some (u : Int))) (some (v : Int))
      = some ((u * 256 + v : Nat) : Int) := by
  rw [jsShl8_small hu]
  unfold jsAddNum
  simp

theorem fold_last_step {u v : Nat} (hu : u < 2 ^ 24) (hv : v ≤ 255) :
    toU32 (jsAddNum (jsShl8 (some (u : Int))) (some (v : Int))) = u * 256 + v := by
  simp only [jsAddNum, jsShl8, toU32, int32ofBits]
  have h1 : (u : Int).emod (2 ^ 32) = u :=
    Int.emod_eq_of_lt (by positivity) (by exact_mod_cast (by omega : u < 2 ^ 32))
  rw [h1]
  have h2 : (u : Int).toNat = u := Int.toNat_natCast u
  rw [h2]
  rw [Nat.mod_eq_of_lt (by omega : u * 256 < 2 ^ 32)]
  split
  · next h =>
    have : ((u * 256 : Nat) : Int) + v = ((u * 256 + v : Nat) : Int) := by push_cast; ring
    rw [this]
    have h3 : ((u * 256 + v : Nat) : Int).emod (2 ^ 32) = ((u * 256 + v : Nat) : Int) :=
      Int.emod_eq_of_lt (by positivity) (by exact_mod_cast (by omega : u * 256 + v < 2 ^ 32))
    rw [h3, Int.toNat_natCast]
  · next h =>
    have h4 : (((u * 256 : Nat) : Int) - 2 ^ 32 + v).emod (2 ^ 32)
        = ((u * 256 + v : Nat) : Int) := by
      have ha : ((u * 256 : Nat) : Int) - 2 ^ 32 + v
          = ((u * 256 + v : Nat) : Int) - 2 ^ 32 := by push_cast; ring
      rw [ha]
      show (((u * 256 + v : Nat) : Int) - 2 ^ 32) % (2 ^ 32) = _
      rw [Int.emod_sub_cancel]
      exact Int.emod_eq_of_lt (by positivity)
        (by exact_mod_cast (by omega : u * 256 + v < 2 ^ 32))
    rw [h4, Int.toNat_natCast]

theorem isOctetStr_facts {p : List Char} (h : isOctetStr p = true) :
    p ≠ [] ∧ p.all Char.isDigit = true ∧ digitsToNat p ≤ 255 := by
  simp only [isOctetStr, Bool.and_eq_true, Bool.not_eq_true',
    decide_eq_true_eq] at h
  obtain ⟨⟨h1, h2⟩, h3⟩ := h
  refine ⟨?_, h2, h3⟩
  intro hnil
  rw [hnil] at h1
  exact absurd h1 (by decide)

theorem ipToLong_of_octets {s : String} {a b c d : Nat}
    (h : ipOctets s = some (a, b, c, d)) : ipToLong s = pack4 a b c d := by
  unfold ipOctets at h
  split at h
  · next p1 p2 p3 p4 heq =>
    split at h
    · next hok =>
      simp only [Bool.and_eq_true] at hok
      obtain ⟨⟨⟨ho1, ho2⟩, ho3⟩, ho4⟩ := hok
      obtain ⟨hne1, hdig1, hle1⟩ := isOctetStr_facts ho1
      obtain ⟨hne2, hdig2, hle2⟩ := isOctetStr_facts ho2
      obtain ⟨hne3, hdig3, hle3⟩ := isOctetStr_facts ho3
      obtain ⟨hne4, hdig4, hle4⟩ := isOctetStr_facts ho4
      injection h with h
      obtain ⟨rfl, rfl, rfl, rfl⟩ : digitsToNat p1 = a ∧ digitsToNat p2 = b ∧
          digitsToNat p3 = c ∧ digitsToNat p4 = d := by
        refine ⟨congrArg (fun x => x.1) h, ?_, ?_, ?_⟩
        · exact congrArg (fun x => x.2.1) h
        · exact congrArg (fun x => x.2.2.1) h
        · exact congrArg (fun x => x.2.2.2) h
      unfold ipToLong
      rw [heq]
      simp only [List.foldl]
      rw [jsParseInt_of_digits hne1 hdig1, jsParseInt_of_digits hne2 hdig2,
        jsParseInt_of_digits hne3 hdig3, jsParseInt_of_digits hne4 hdig4]
      have hs0 : jsAddNum (jsShl8 (some 0)) (some ((digitsToNat p1 : Nat) : Int))
          = some ((digitsToNat p1 : Nat) : Int) := by
        have := fold_step_small (v := digitsToNat p1) (u := 0) (by norm_num)
        simpa using this
      rw [hs0]
      rw [fold_step_small (by omega : digitsToNat p1 < 2 ^ 23)]
      rw [fold_step_small (by omega : digitsToNat p1 * 256 + digitsToNat p2 < 2 ^ 23)]
      rw [fold_last_step
        (by omega : (digitsToNat p1 * 256 + digitsToNat p2) * 256 + digitsToNat p3 < 2 ^ 24)
        hle4]
      unfold pack4
      ring
    · exact absurd h (by simp)
  · exact absurd h (by simp)

theorem ipOctets_bounds {s : String} {a b c d : Nat}
    (h : ipOctets s = some (a, b, c, d)) :
    a ≤ 255 ∧ b ≤ 255 ∧ c ≤ 255 ∧ d ≤ 255 := by
  unfold ipOctets at h
  split at h
  · next p1 p2 p3 p4 heq =>
    split at h
    · next hok =>
      simp only [Bool.and_eq_true] at hok
      obtain ⟨⟨⟨ho1, ho2⟩, ho3⟩, ho4⟩ := hok
      injection h with h
      obtain ⟨rfl, rfl, rfl, rfl⟩ : digitsToNat p1 = a ∧ digitsToNat p2 = b ∧
          digitsToNat p3 = c ∧ digitsToNat p4 = d :=
        ⟨congrArg (fun x => x.1) h, congrArg (fun x => x.2.1) h,
         congrArg (fun x => x.2.2.1) h, congrArg (fun x => x.2.2.2) h⟩
      exact ⟨(isOctetStr_facts ho1).2.2, (isOctetStr_facts ho2).2.2,
        (isOctetStr_facts ho3).2.2, (isOctetStr_facts ho4).2.2⟩
    · exact absurd h (by simp)
  · exact absurd h (by simp)

theorem pack4_lt {a b c d : Nat} (ha : a ≤ 255) (hb : b ≤ 255) (hc : c ≤ 255)
    (hd : d ≤ 255) : pack4 a b c d < 2 ^ 32 := by
  unfold pack4
  omega

theorem jsAnd_zero (x : Nat) : jsAnd x 0 = 0 := by
  unfold jsAnd int32ofBits
  simp

/-! ### RoutingEngine lemmas -/

theorem bfs_aux_agree (st : NetworkSimulator) (target : Device) (pre : List Device) :
    ∀ (fuel : Nat) (queue : List (Device × List Device)) (visited : List Nat),
      (getRouteAux st target pre fuel queue visited).isSome
        = findPathBFSAux st target fuel (queue.map (fun q => q.1)) visited := by
  intro fuel
  induction fuel with
  | zero =>
    intro queue visited
    match queue with
    | [] => simp [getRouteAux, findPathBFSAux]
    | (c, p) :: tl => simp [getRouteAux, findPathBFSAux]
  | succ n ih =>
    intro queue visited
    match queue with
    | [] => simp [getRouteAux, findPathBFSAux]
    | (current, path) :: tl =>
      simp only [getRouteAux, findPathBFSAux, List.map_cons]
      by_cases hdir : routerDirect target current
      · simp [hdir]
      · simp only [hdir, Bool.false_eq_true, if_false]
        rw [ih]
        congr 1
        simp [Function.comp_def]

theorem routableIPs_sub_bfs {target : Device} {tip : String}
    (h : tip ∈ routableIPs target) : tip ∈ bfsTargetIPs target ∧ tip ≠ "" := by
  unfold routableIPs bfsTargetIPs at *
  by_cases ht : target.type = "Router"
  · rw [if_pos ht] at h ⊢
    rw [List.mem_filter] at h
    refine ⟨List.mem_filter.mpr h, ?_⟩
    simpa using h.2
  · rw [if_neg ht] at h ⊢
    split at h
    · next hip =>
      rw [List.mem_singleton] at h
      subst h
      exact ⟨List.mem_singleton.mpr rfl, hip⟩
    · exact absurd h (by simp)

theorem directStep_router_routerDirect {source target : Device}
    (hr : source.type = "Router") (h : directStep source target = true) :
    routerDirect target source = true := by
  unfold directStep at h
  rw [List.any_eq_true] at h
  obtain ⟨sip, hsip_mem, hcond⟩ := h
  have hsip_mem' := hsip_mem
  unfold routableIPs at hsip_mem'
  rw [if_pos hr] at hsip_mem'
  rw [List.mem_filter] at hsip_mem'
  obtain ⟨hsip_map, hsip_ne⟩ := hsip_mem'
  have hfind : ∃ i0, source.interfaces.find? (fun i => i.ip = sip) = some i0 := by
    rw [List.mem_map] at hsip_map
    obtain ⟨i, hi_mem, hi_ip⟩ := hsip_map
    have hsome : (source.interfaces.find? (fun i => i.ip = sip)).isSome = true := by
      rw [List.find?_isSome]
      exact ⟨i, hi_mem, by simp [hi_ip]⟩
    exact Option.isSome_iff_exists.mp hsome
  obtain ⟨i0, hi0⟩ := hfind
  have hi0_mem : i0 ∈ source.interfaces := List.mem_of_find?_eq_some hi0
  have hi0_ip : i0.ip = sip := by
    have := List.find?_some hi0
    simpa using this
  simp only [hr, if_true, hi0, Option.map_some', Option.getD_some, Bool.and_eq_true,
    decide_eq_true_eq, List.any_eq_true] at hcond
  obtain ⟨hmask_ne, tip, htip_mem, htip_sub⟩ := hcond
  obtain ⟨htip_bfs, htip_ne⟩ := routableIPs_sub_bfs htip_mem
  unfold routerDirect
  rw [List.any_eq_true]
  refine ⟨i0, hi0_mem, ?_⟩
  simp only [Bool.and_eq_true, decide_eq_true_eq, List.any_eq_true]
  refine ⟨⟨by simp only [hi0_ip]; simpa using hsip_ne, hmask_ne⟩, tip, htip_bfs, htip_ne, ?_⟩
  rw [hi0_ip]
  exact htip_sub

theorem checkRoutingPath_router (st : NetworkSimulator) {source target : Device}
    (hr : source.type = "Router") :
    checkRoutingPath st source target = findPathBFS st source target := by
  unfold checkRoutingPath
  by_cases hd : directStep source target
  · rw [if_pos hd]
    unfold findPathBFS
    by_cases hid : source.id = target.id
    · rw [if_pos hid]
    · rw [if_neg hid]
      unfold routingFuel
      rw [findPathBFSAux]
      rw [directStep_router_routerDirect hr hd]
      simp
  · rw [if_neg hd]
    simp only [hr, if_true]

theorem getRoute_isSome_router {st : NetworkSimulator} {s t : Nat}
    {src tgt : Device} (hs : getDevice st s = some src)
    (ht : getDevice st t = some tgt) (hr : src.type = "Router")
    (hne : src.id ≠ tgt.id) :
    (getRoute st s t).isSome = checkRoutingPath st src tgt := by
  unfold getRoute
  rw [hs, ht]
  simp only [hr, if_true]
  rw [bfs_aux_agree]
  simp only [List.map_cons, List.map_nil]
  rw [checkRoutingPath_router st hr]
  unfold findPathBFS
  rw [if_neg hne]

theorem routerDirect_false_of_blank_target {target : Device}
    (ht : target.type ≠ "Router") (hip : target.ip = "") (current : Device) :
    routerDirect target current = false := by
  unfold routerDirect bfsTargetIPs
  rw [if_neg ht]
  simp [hip]

theorem findPathBFSAux_false_of_blank_target (st : NetworkSimulator)
    {target : Device} (ht : target.type ≠ "Router") (hip : target.ip = "") :
    ∀ fuel queue visited, findPathBFSAux st target fuel queue visited = false := by
  intro fuel
  induction fuel with
  | zero =>
    intro q v
    match q with
    | [] => simp [findPathBFSAux]
    | c :: tl => simp [findPathBFSAux]
  | succ n ih =>
    intro q v
    match q with
    | [] => simp [findPathBFSAux]
    | current :: tl =>
      simp only [findPathBFSAux]
      rw [routerDirect_false_of_blank_target ht hip current]
      simp only [Bool.false_eq_true, if_false]
      exact ih _ _

theorem directStep_false_of_blank_target {source target : Device}
    (ht : target.type ≠ "Router") (hip : target.ip = "") :
    directStep source target = false := by
  unfold directStep
  have htgt : routableIPs target = [] := by
    unfold routableIPs
    rw [if_neg ht]
    simp [hip]
  simp [htgt]

theorem gatewayRouter_mem {st : NetworkSimulator} {gw : String} {r : Device}
    (h : gatewayRouter st gw = some r) :
    r ∈ st.devices ∧ r.type = "Router" := by
  unfold gatewayRouter at h
  refine ⟨List.mem_of_find?_eq_some h, ?_⟩
  have := List.find?_some h
  simp only [Bool.and_eq_true, decide_eq_true_eq] at this
  exact this.1

theorem checkRoutingPath_false_of_blank_target {st : NetworkSimulator}
    {source target : Device}
    (hnodup : (st.devices.map (fun d => d.id)).Nodup)
    (htmem : target ∈ st.devices)
    (ht : target.type ≠ "Router") (hip : target.ip = "")
    (hne : source.id ≠ target.id) :
    checkRoutingPath st source target = false := by
  unfold checkRoutingPath
  rw [directStep_false_of_blank_target ht hip]
  simp only [Bool.false_eq_true, if_false]
  split
  · rfl
  · next startRouter hmatch =>
    unfold findPathBFS
    have hsid : startRouter.id ≠ target.id := by
      by_cases hr : source.type = "Router"
      · simp only [hr, if_true, Option.some.injEq] at hmatch
        rw [← hmatch]
        exact hne
      · simp only [hr, if_false] at hmatch
        split at hmatch
        · exact absurd hmatch (by simp)
        split at hmatch
        · exact absurd hmatch (by simp)
        obtain ⟨hmem, hrt⟩ := gatewayRouter_mem hmatch
        intro heq
        have heqd : startRouter = target :=
          List.inj_on_of_nodup_map hnodup hmem htmem heq
        rw [heqd] at hrt
        exact ht hrt
    rw [if_neg hsid]
    exact findPathBFSAux_false_of_blank_target st ht hip _ _ _





/-! ## Claim theorems -/

/-- C4: on the Scenario D topology — two routers joined by a cabled serial
link whose two connecting interfaces are both unaddressed — the link is
never used as an L3 hop: getRoute is none and checkRoutingPath is false
for every pair separated by that link (in both directions), even though
checkPhysicalPath across the link is true and the physical trace through
it remains a valid path for the trace consumer. -/
theorem unaddressed_link_no_l3_hop :
    checkPhysicalPath scenarioD 1 4 = true
    ∧ getPhysicalPath scenarioD 1 4 = some [1, 2, 3, 4]
    ∧ ((getDevice scenarioD 2).bind (fun d => d.getInterface "Serial0/0/0")).map
        (fun i => (i.connectedDeviceId, i.ip)) = some (some 3, "")
    ∧ ((getDevice scenarioD 3).bind (fun d => d.getInterface "Serial0/0/0")).map
        (fun i => (i.connectedDeviceId, i.ip)) = some (some 2, "")
    ∧ getRoute scenarioD 1 4 = none ∧ getRoute scenarioD 1 3 = none
    ∧ getRoute scenarioD 2 3 = none ∧ getRoute scenarioD 2 4 = none
    ∧ getRoute scenarioD 4 1 = none ∧ getRoute scenarioD 4 2 = none
    ∧ getRoute scenarioD 3 1 = none ∧ getRoute scenarioD 3 2 = none
    ∧ ((getDevice scenarioD 1).bind (fun s0 => (getDevice scenarioD 4).map
        (fun t0 => checkRoutingPath scenarioD s0 t0))) = some false
    ∧ (testConnectivity scenarioD 1 4).success = false := by
  decide

/-- C5: ipToLong never rejects an input: it is total and silently coerces
every string — malformed or not — to an unsigned 32-bit value (the empty
string to 0, a three-field string to the packing of its fields, an
out-of-range octet wrapped modulo 2^32), contradicting the required
hard-error behavior. -/
theorem ipToLong_silently_coerces :
    (∀ s : String, ipToLong s < 2 ^ 32)
    ∧ ipOctets "" = none ∧ ipToLong "" = 0
    ∧ ipOctets "1.2.3" = none ∧ ipToLong "1.2.3" = 66051
    ∧ ipOctets "999.0.0.1" = none ∧ ipToLong "999.0.0.1" = 3875536897 :=
  ⟨ipToLong_lt, by decide, by decide, by decide, by decide, by decide, by decide⟩

/-- C6: connectInterfaces does set both interfaces to down immediately,
but disconnectLink performs no clearTimeout: the pending link-up timer
survives the disconnect, and when it fires it sets both now-disconnected
interfaces to up — the stale up transition the claim says is prevented. -/
theorem stale_link_up_timer_fires_after_disconnect :
    (connectInterfaces twoBlankPCs 1 "FastEthernet0" 2 "FastEthernet0").1 = true
    ∧ ((getDevice linkedPair 1).bind (fun d => d.getInterface "FastEthernet0")).map
        (fun i => i.status) = some (some "down")
    ∧ ((getDevice linkedPair 2).bind (fun d => d.getInterface "FastEthernet0")).map
        (fun i => i.status) = some (some "down")
    ∧ linkedPair.pending = [staleTimer]
    ∧ ((getDevice unlinkedPair 1).bind (fun d => d.getInterface "FastEthernet0")).map
        (fun i => (i.status, i.connectedDeviceId)) = some (some "down", none)
    ∧ unlinkedPair.pending = [staleTimer]
    ∧ ((getDevice resurrectedPair 1).bind (fun d => d.getInterface "FastEthernet0")).map
        (fun i => (i.status, i.connectedDeviceId)) = some (some "up", none)
    ∧ ((getDevice resurrectedPair 2).bind (fun d => d.getInterface "FastEthernet0")).map
        (fun i => (i.status, i.connectedDeviceId)) = some (some "up", none) := by
  decide

/-- C10: testConnectivity and getRoute are pure queries: their
state-passing forms return the simulator state — the device list and with
it every device and interface field — unchanged. -/
theorem queries_leave_state_unchanged :
    ∀ (st : NetworkSimulator) (s t : Nat),
      (testConnectivityRun st s t).2 = st ∧ (getRouteRun st s t).2 = st :=
  fun _ _ _ => ⟨rfl, rfl⟩

/-- C1, counterexample: on the API-reachable topology of two freshly added
unconfigured PCs, testConnectivity 1 2 fails (no physical path) while
getRoute 1 2 returns a non-null route (its direct-connection check
compares the empty addresses under the empty mask and succeeds), so the
claimed equivalence is false. -/
theorem testConnectivity_getRoute_disagree_cex :
    (testConnectivity twoBlankPCs 1 2).success = false
    ∧ (getRoute twoBlankPCs 1 2).isSome = true := by
  decide

/-- C2, counterexample: a configured PC cabled to an address-less PC — all
premises of the claim hold, yet testConnectivity reports the
NetworkUnreachable message; the source contains no missing-target-address
check and no such classification at all. -/
theorem missing_target_classification_cex :
    checkPhysicalPath pcToBlankPC 1 2 = true
    ∧ (getDevice pcToBlankPC 1).map (fun d => (d.type, d.ip)) = some ("PC", "10.0.0.1")
    ∧ (getDevice pcToBlankPC 2).map (fun d => (d.type, d.ip)) = some ("PC", "")
    ∧ testConnectivity pcToBlankPC 1 2
        = ⟨false, "Red de destino inalcanzable"⟩ := by
  decide

/-- C3, counterexample: a PC whose gateway 10.0.0.254 lies in its own /24
subnet but is owned by no router, cabled to a PC in another subnet — the
claim premises hold, yet the failure message is the NetworkUnreachable
one, not the GatewayUnreachable one (that message requires an
out-of-subnet gateway). -/
theorem gateway_unreachable_classification_cex :
    (getDevice pcGatewaylessPair 1).map (fun d => (d.type, d.ip, d.gateway, d.mask))
      = some ("PC", "10.0.0.1", "10.0.0.254", "255.255.255.0")
    ∧ isSameSubnet "10.0.0.1" "10.0.0.254" "255.255.255.0" = true
    ∧ gatewayRouter pcGatewaylessPair "10.0.0.254" = none
    ∧ checkPhysicalPath pcGatewaylessPair 1 2 = true
    ∧ (testConnectivity pcGatewaylessPair 1 2).success = false
    ∧ (testConnectivity pcGatewaylessPair 1 2).msg
        ≠ "Error: Gateway inalcanzable (fuera de subred)"
    ∧ (testConnectivity pcGatewaylessPair 1 2).msg = "Red de destino inalcanzable" := by
  decide

/-- C9: ipToLong of the empty string evaluates to 0, so isSameSubnet under
an empty (unconfigured) mask is true for every pair of strings; getRoute
does not guard the legacy mask in its direct-connection check, so on a
topology whose source has an empty mask and addresses in clearly different
networks it still returns a direct route. -/
theorem empty_mask_same_subnet :
    ipToLong "" = 0
    ∧ (∀ a b : String, isSameSubnet a b "" = true)
    ∧ isSameSubnet "10.0.0.1" "192.168.5.7" "255.255.255.0" = false
    ∧ (getDevice emptyMaskPair 1).map (fun d => (d.ip, d.mask, d.gateway))
        = some ("10.0.0.1", "", "")
    ∧ (getRoute emptyMaskPair 1 2).isSome = true := by
  refine ⟨by decide, ?_, by decide, by decide, by decide⟩
  intro a b
  show decide (jsAnd (ipToLong a) (ipToLong "") = jsAnd (ipToLong b) (ipToLong "")) = true
  rw [show ipToLong "" = 0 from by decide, jsAnd_zero, jsAnd_zero]
  simp

/-- C1, amended: for distinct existing devices whose source is a Router,
testConnectivity succeeds exactly when a physical cable path exists and
getRoute returns a non-null route.  (The unconditional claim fails: getRoute
checks no physical path, skips the gateway same-subnet test, and its
direct-connection check uses the raw legacy fields, so for non-router
sources the two can disagree in both directions.) -/
theorem testConnectivity_getRoute_agree_for_router_source
    (st : NetworkSimulator) (s t : Nat) (src tgt : Device)
    (hs : getDevice st s = some src) (ht : getDevice st t = some tgt)
    (hr : src.type = "Router") (hne : src.id ≠ tgt.id) :
    (testConnectivity st s t).success
      = (checkPhysicalPath st src.id tgt.id && (getRoute st s t).isSome) := by
  have hroute := getRoute_isSome_router hs ht hr hne
  unfold testConnectivity
  rw [hs, ht]
  simp only
  rw [if_neg hne]
  by_cases hp : checkPhysicalPath st src.id tgt.id
  · have hrhs : (checkPhysicalPath st src.id tgt.id && (getRoute st s t).isSome)
        = checkRoutingPath st src tgt := by
      rw [hroute, hp]
      simp
    rw [hrhs]
    simp only [hp, Bool.not_true, Bool.false_eq_true, if_false]
    have hipcond : (src.ip = "" && src.type ≠ "Router") = false := by
      simp [hr]
    simp only [hipcond, Bool.false_eq_true, if_false]
    by_cases hcr : checkRoutingPath st src tgt
    · simp [hcr]
    · have hcrf : checkRoutingPath st src tgt = false := by
        simpa using hcr
      rw [hcrf]
      simp only [Bool.false_eq_true, if_false]
      split <;> rfl
  · have hpb : checkPhysicalPath st src.id tgt.id = false := by
      simpa using hp
    simp [hpb]

/-- C1, witness: the router-to-PC topology instantiates the amended
equivalence at a concrete input. -/
theorem testConnectivity_getRoute_agree_for_router_source_witness :
    getDevice routerPCState 1 = some routerPCsrc
    ∧ getDevice routerPCState 2 = some routerPCtgt
    ∧ routerPCsrc.type = "Router"
    ∧ routerPCsrc.id ≠ routerPCtgt.id
    ∧ (testConnectivity routerPCState 1 2).success
        = (checkPhysicalPath routerPCState routerPCsrc.id routerPCtgt.id
            && (getRoute routerPCState 1 2).isSome) :=
  ⟨by decide, by decide, by decide, by decide,
   testConnectivity_getRoute_agree_for_router_source routerPCState 1 2
     routerPCsrc routerPCtgt (by decide) (by decide) (by decide) (by decide)⟩

/-- C8: for well-formed dotted-decimal address strings, isSameSubnet
returns exactly the equality of the mask-anded big-endian packings of the
octets, and it is reflexive. -/
theorem isSameSubnet_packed_land {a b m : String}
    {a1 a2 a3 a4 b1 b2 b3 b4 m1 m2 m3 m4 : Nat}
    (ha : ipOctets a = some (a1, a2, a3, a4))
    (hb : ipOctets b = some (b1, b2, b3, b4))
    (hm : ipOctets m = some (m1, m2, m3, m4)) :
    isSameSubnet a b m
      = decide (pack4 a1 a2 a3 a4 &&& pack4 m1 m2 m3 m4
          = pack4 b1 b2 b3 b4 &&& pack4 m1 m2 m3 m4)
    ∧ isSameSubnet a a m = true := by
  constructor
  · show decide (jsAnd (ipToLong a) (ipToLong m) = jsAnd (ipToLong b) (ipToLong m)) = _
    rw [ipToLong_of_octets ha, ipToLong_of_octets hb, ipToLong_of_octets hm]
    obtain ⟨ha1, ha2, ha3, ha4⟩ := ipOctets_bounds ha
    obtain ⟨hb1, hb2, hb3, hb4⟩ := ipOctets_bounds hb
    obtain ⟨hm1, hm2, hm3, hm4⟩ := ipOctets_bounds hm
    rw [decide_eq_decide]
    exact jsAnd_eq_iff (pack4_lt ha1 ha2 ha3 ha4) (pack4_lt hb1 hb2 hb3 hb4)
      (pack4_lt hm1 hm2 hm3 hm4)
  · show decide (jsAnd (ipToLong a) (ipToLong m) = jsAnd (ipToLong a) (ipToLong m)) = true
    simp

/-- C8, witness: the packed-land classification instantiated on concrete
addresses in one /24 network. -/
theorem isSameSubnet_packed_land_witness :
    ipOctets "192.168.1.10" = some (192, 168, 1, 10)
    ∧ ipOctets "192.168.1.20" = some (192, 168, 1, 20)
    ∧ ipOctets "255.255.255.0" = some (255, 255, 255, 0)
    ∧ (isSameSubnet "192.168.1.10" "192.168.1.20" "255.255.255.0"
        = decide (pack4 192 168 1 10 &&& pack4 255 255 255 0
            = pack4 192 168 1 20 &&& pack4 255 255 255 0)
      ∧ isSameSubnet "192.168.1.10" "192.168.1.10" "255.255.255.0" = true) :=
  ⟨by decide, by decide, by decide,
   isSameSubnet_packed_land (by decide) (by decide) (by decide)⟩

/-- C2, amended: for existing, distinct, physically connected devices with
unique ids, a source with a configured address (or a router source) and a
non-router target without a configured address, testConnectivity fails —
but with the NetworkUnreachable classification (or GatewayUnreachable when
the source also has an out-of-subnet gateway), not with a
MissingTargetAddress classification, which does not exist in the code. -/
theorem blank_target_fails_network_unreachable
    (st : NetworkSimulator) (s t : Nat) (src tgt : Device)
    (hnodup : (st.devices.map (fun d => d.id)).Nodup)
    (hs : getDevice st s = some src) (ht : getDevice st t = some tgt)
    (hne : src.id ≠ tgt.id)
    (hphys : checkPhysicalPath st src.id tgt.id = true)
    (hsrc : src.ip ≠ "" ∨ src.type = "Router")
    (httype : tgt.type ≠ "Router") (htip : tgt.ip = "") :
    (testConnectivity st s t).success = false
    ∧ ((testConnectivity st s t).msg = "Red de destino inalcanzable"
        ∨ (testConnectivity st s t).msg
            = "Error: Gateway inalcanzable (fuera de subred)") := by
  have htmem : tgt ∈ st.devices := by
    unfold getDevice at ht
    exact List.mem_of_find?_eq_some ht
  have hroute : checkRoutingPath st src tgt = false :=
    checkRoutingPath_false_of_blank_target hnodup htmem httype htip hne
  unfold testConnectivity
  rw [hs, ht]
  simp only
  rw [if_neg hne]
  have hipcond : (src.ip = "" && src.type ≠ "Router") = false := by
    rcases hsrc with h | h
    · simp [h]
    · simp [h]
  simp only [hphys, Bool.not_true, Bool.false_eq_true, if_false, hipcond, hroute]
  constructor
  · split <;> rfl
  · split
    · right; rfl
    · left; rfl

/-- C2, witness: the amended classification instantiated on the
configured-PC-to-blank-PC topology. -/
theorem blank_target_fails_network_unreachable_witness :
    (pcToBlankPC.devices.map (fun d => d.id)).Nodup
    ∧ getDevice pcToBlankPC 1 = some blankTargetSrc
    ∧ getDevice pcToBlankPC 2 = some blankTargetTgt
    ∧ blankTargetSrc.id ≠ blankTargetTgt.id
    ∧ checkPhysicalPath pcToBlankPC blankTargetSrc.id blankTargetTgt.id = true
    ∧ (blankTargetSrc.ip ≠ "" ∨ blankTargetSrc.type = "Router")
    ∧ blankTargetTgt.type ≠ "Router" ∧ blankTargetTgt.ip = ""
    ∧ ((testConnectivity pcToBlankPC 1 2).success = false
      ∧ ((testConnectivity pcToBlankPC 1 2).msg = "Red de destino inalcanzable"
          ∨ (testConnectivity pcToBlankPC 1 2).msg
              = "Error: Gateway inalcanzable (fuera de subred)")) :=
  ⟨by decide, by decide, by decide, by decide, by decide, by decide, by decide, by decide,
   blank_target_fails_network_unreachable pcToBlankPC 1 2 blankTargetSrc blankTargetTgt
     (by decide) (by decide) (by decide) (by decide) (by decide) (by decide)
     (by decide) (by decide)⟩

/-- C3, amended: for an existing, distinct, physically connected pair with
a non-router source holding a configured address and an in-subnet gateway
owned by no router, and a target not directly reachable from the source
address, testConnectivity fails — but with the NetworkUnreachable
classification: the GatewayUnreachable message is only produced when the
gateway fails the same-subnet test. -/
theorem gateway_without_router_fails_network_unreachable
    (st : NetworkSimulator) (s t : Nat) (src tgt : Device)
    (hs : getDevice st s = some src) (ht : getDevice st t = some tgt)
    (hne : src.id ≠ tgt.id)
    (hphys : checkPhysicalPath st src.id tgt.id = true)
    (hstype : src.type ≠ "Router") (hip : src.ip ≠ "")
    (hgw : src.gateway ≠ "")
    (hsub : isSameSubnet src.ip src.gateway src.mask = true)
    (hnorouter : ∀ d ∈ st.devices,
      ¬(d.type = "Router" ∧ ∃ i ∈ d.interfaces, i.ip = src.gateway))
    (hnodirect : ∀ tip ∈ routableIPs tgt, isSameSubnet src.ip tip src.mask = false) :
    testConnectivity st s t = ⟨false, "Red de destino inalcanzable"⟩ := by
  have hgwnone : gatewayRouter st src.gateway = none := by
    unfold gatewayRouter
    rw [List.find?_eq_none]
    intro d hd
    have hnd := hnorouter d hd
    simp only [Bool.and_eq_true, decide_eq_true_eq, List.any_eq_true]
    intro hcontra
    exact hnd ⟨hcontra.1, hcontra.2⟩
  have hds : directStep src tgt = false := by
    unfold directStep
    rw [List.any_eq_false]
    intro sip hsip
    unfold routableIPs at hsip
    rw [if_neg hstype, if_pos hip, List.mem_singleton] at hsip
    subst hsip
    simp only [hstype, if_false, Bool.and_eq_true, decide_eq_true_eq, List.any_eq_true]
    intro hcontra
    obtain ⟨-, tip, htip, hsame⟩ := hcontra
    rw [hnodirect tip htip] at hsame
    exact Bool.false_ne_true hsame
  have hroute : checkRoutingPath st src tgt = false := by
    unfold checkRoutingPath
    rw [hds]
    simp only [Bool.false_eq_true, if_false]
    rw [if_neg hstype, if_neg hgw]
    have hnotsub : (!isSameSubnet src.ip src.gateway src.mask) = false := by
      rw [hsub]
      rfl
    simp only [hnotsub, Bool.false_eq_true, if_false, hgwnone]
  unfold testConnectivity
  rw [hs, ht]
  simp only
  rw [if_neg hne]
  have hipcond : (src.ip = "" && src.type ≠ "Router") = false := by
    simp [hip]
  have hgwcond : (src.gateway ≠ "" && !isSameSubnet src.ip src.gateway src.mask) = false := by
    rw [hsub]
    simp
  simp only [hphys, Bool.not_true, Bool.false_eq_true, if_false, hipcond, hroute, hgwcond]

/-- C3, witness: the amended classification instantiated on the topology
with a routerless in-subnet gateway. -/
theorem gateway_without_router_fails_network_unreachable_witness :
    getDevice pcGatewaylessPair 1 = some gwlessSrc
    ∧ getDevice pcGatewaylessPair 2 = some gwlessTgt
    ∧ gwlessSrc.id ≠ gwlessTgt.id
    ∧ checkPhysicalPath pcGatewaylessPair gwlessSrc.id gwlessTgt.id = true
    ∧ gwlessSrc.type ≠ "Router" ∧ gwlessSrc.ip ≠ "" ∧ gwlessSrc.gateway ≠ ""
    ∧ isSameSubnet gwlessSrc.ip gwlessSrc.gateway gwlessSrc.mask = true
    ∧ (∀ d ∈ pcGatewaylessPair.devices,
        ¬(d.type = "Router" ∧ ∃ i ∈ d.interfaces, i.ip = gwlessSrc.gateway))
    ∧ (∀ tip ∈ routableIPs gwlessTgt,
        isSameSubnet gwlessSrc.ip tip gwlessSrc.mask = false)
    ∧ testConnectivity pcGatewaylessPair 1 2 = ⟨false, "Red de destino inalcanzable"⟩ :=
  ⟨by decide, by decide, by decide, by decide, by decide, by decide, by decide,
   by decide, by decide, by decide,
   gateway_without_router_fails_network_unreachable pcGatewaylessPair 1 2
     gwlessSrc gwlessTgt (by decide) (by decide) (by decide) (by decide) (by decide)
     (by decide) (by decide) (by decide) (by decide) (by decide)⟩

/-- C7: for a non-router source with a configured address and no gateway,
physically connected to a distinct non-router target in a different
subnet, testConnectivity fails through the no-gateway branch with the
NetworkUnreachable classification; and in every state whatsoever, a
failed ping carrying the GatewayUnreachable message implies the source
exists, has a nonempty gateway, and that gateway fails the same-subnet
test against the source address and mask. -/
theorem no_gateway_network_unreachable
    (st : NetworkSimulator) (s t : Nat) (src tgt : Device)
    (hs : getDevice st s = some src) (ht : getDevice st t = some tgt)
    (hne : src.id ≠ tgt.id)
    (hphys : checkPhysicalPath st src.id tgt.id = true)
    (hstype : src.type ≠ "Router") (hip : src.ip ≠ "")
    (httype : tgt.type ≠ "Router")
    (hdiff : isSameSubnet src.ip tgt.ip src.mask = false)
    (hgw : src.gateway = "") :
    testConnectivity st s t = ⟨false, "Red de destino inalcanzable"⟩
    ∧ (∀ (st' : NetworkSimulator) (s' t' : Nat),
        (testConnectivity st' s' t').success = false →
        (testConnectivity st' s' t').msg
          = "Error: Gateway inalcanzable (fuera de subred)" →
        ∃ src', getDevice st' s' = some src' ∧ src'.gateway ≠ ""
          ∧ isSameSubnet src'.ip src'.gateway src'.mask = false) := by
  constructor
  · have hds : directStep src tgt = false := by
      unfold directStep
      rw [List.any_eq_false]
      intro sip hsip
      unfold routableIPs at hsip
      rw [if_neg hstype, if_pos hip, List.mem_singleton] at hsip
      subst hsip
      simp only [hstype, if_false, Bool.and_eq_true, decide_eq_true_eq, List.any_eq_true]
      intro hcontra
      obtain ⟨-, tip, htip, hsame⟩ := hcontra
      unfold routableIPs at htip
      rw [if_neg httype] at htip
      split at htip
      · rw [List.mem_singleton] at htip
        subst htip
        rw [hdiff] at hsame
        exact Bool.false_ne_true hsame
      · exact absurd htip (by simp)
    have hroute : checkRoutingPath st src tgt = false := by
      unfold checkRoutingPath
      rw [hds]
      simp only [Bool.false_eq_true, if_false]
      rw [if_neg hstype, if_pos hgw]
    unfold testConnectivity
    rw [hs, ht]
    simp only
    rw [if_neg hne]
    have hipcond : (src.ip = "" && src.type ≠ "Router") = false := by
      simp [hip]
    have hgwcond : (src.gateway ≠ "" && !isSameSubnet src.ip src.gateway src.mask)
        = false := by
      simp [hgw]
    simp only [hphys, Bool.not_true, Bool.false_eq_true, if_false, hipcond, hroute,
      hgwcond]
  · intro st' s' t' hsucc hmsg
    unfold testConnectivity at hsucc hmsg
    cases hgd : getDevice st' s' with
    | none =>
      rw [hgd] at hmsg
      cases hgd2 : getDevice st' t' with
      | none => simp only at hmsg; exact absurd hmsg (by decide)
      | some tgt' => simp only at hmsg; exact absurd hmsg (by decide)
    | some src' =>
      cases hgd2 : getDevice st' t' with
      | none => rw [hgd, hgd2] at hmsg; simp only at hmsg; exact absurd hmsg (by decide)
      | some tgt' =>
        rw [hgd, hgd2] at hsucc hmsg
        simp only at hsucc hmsg
        by_cases h1 : src'.id = tgt'.id
        · rw [if_pos h1] at hmsg
          exact absurd hmsg (by decide)
        rw [if_neg h1] at hsucc hmsg
        by_cases h2 : (!checkPhysicalPath st' src'.id tgt'.id) = true
        · rw [if_pos h2] at hmsg
          exact absurd hmsg (by decide)
        rw [if_neg h2] at hsucc hmsg
        by_cases h3 : (src'.ip = "" && src'.type ≠ "Router") = true
        · rw [if_pos h3] at hmsg
          exact absurd hmsg (by decide)
        rw [if_neg h3] at hsucc hmsg
        by_cases h4 : checkRoutingPath st' src' tgt' = true
        · rw [if_pos h4] at hsucc
          simp at hsucc
        rw [if_neg h4] at hmsg
        by_cases h5 : (src'.gateway ≠ "" && !isSameSubnet src'.ip src'.gateway src'.mask)
            = true
        · simp only [Bool.and_eq_true, decide_eq_true_eq, Bool.not_eq_true'] at h5
          exact ⟨src', rfl, h5.1, h5.2⟩
        · rw [if_neg h5] at hmsg
          exact absurd hmsg (by decide)

/-- C7, witness: the no-gateway classification instantiated on the
cross-subnet PC pair without a gateway. -/
theorem no_gateway_network_unreachable_witness :
    getDevice pcNoGatewayPair 1 = some noGwSrc
    ∧ getDevice pcNoGatewayPair 2 = some noGwTgt
    ∧ noGwSrc.id ≠ noGwTgt.id
    ∧ checkPhysicalPath pcNoGatewayPair noGwSrc.id noGwTgt.id = true
    ∧ noGwSrc.type ≠ "Router" ∧ noGwSrc.ip ≠ "" ∧ noGwTgt.type ≠ "Router"
    ∧ isSameSubnet noGwSrc.ip noGwTgt.ip noGwSrc.mask = false
    ∧ noGwSrc.gateway = ""
    ∧ (testConnectivity pcNoGatewayPair 1 2 = ⟨false, "Red de destino inalcanzable"⟩
      ∧ (∀ (st' : NetworkSimulator) (s' t' : Nat),
          (testConnectivity st' s' t').success = false →
          (testConnectivity st' s' t').msg
            = "Error: Gateway inalcanzable (fuera de subred)" →
          ∃ src', getDevice st' s' = some src' ∧ src'.gateway ≠ ""
            ∧ isSameSubnet src'.ip src'.gateway src'.mask = false)) :=
  ⟨by decide, by decide, by decide, by decide, by decide, by decide, by decide,
   by decide, by decide,
   no_gateway_network_unreachable pcNoGatewayPair 1 2 noGwSrc noGwTgt
     (by decide) (by decide) (by decide) (by decide) (by decide) (by decide)
     (by decide) (by decide) (by decide)⟩
